import Mathlib

/-!
Verification of the K6-TMS load-test scripts.

The load-test scripts (`mastergroupingroute.js`, `test.js`) are embedded as
pure functions from an HTTP oracle (a function from requests to responses)
to the trace of observable effects the script body performs in one
iteration: HTTP requests in issue order, console logs, and the final sleep.
The summary post-processor (`handleSummary.js`) is embedded as a pure
function parametric in the external `htmlReport` / `textSummary` /
`JSON.stringify` routines, with JavaScript's first-occurrence
`String.replace` modelled explicitly on character lists.
-/

namespace K6TMS

/-- A cookie object as exposed on a k6 response's cookie jar: only the
`value` field is read by the scripts. -/
structure Cookie where
  value : String
deriving DecidableEq, Repr

/-- The parts of a k6 HTTP response object that the scripts read:
`status`, `body`, and the cookie jar `cookies`, a map from cookie name to
an optional array of cookie objects (absent names yield `undefined`,
modelled as `none`). -/
structure Response where
  status : Nat
  body : String
  cookies : String → Option (List Cookie)

/-- An HTTP request as issued by the scripts: either a form-encoded POST
with a parameter list, or a GET with a header list. -/
inductive Request where
  | post (url : String) (params : List (String × String))
  | get (url : String) (headers : List (String × String))
deriving DecidableEq, Repr

/-- One observable effect of a script body: an HTTP request being issued,
a `console.log` call, or a `sleep`. -/
inductive Event where
  | request (r : Request)
  | log (msg : String)
  | sleep (seconds : Nat)
deriving DecidableEq, Repr

/-- The requests issued in a trace, in order. -/
def requestsOf (es : List Event) : List Request :=
  es.filterMap fun e =>
    match e with
    | Event.request r => some r
    | _ => none

/-- The console-log messages of a trace, in order. -/
def logsOf (es : List Event) : List String :=
  es.filterMap fun e =>
    match e with
    | Event.log m => some m
    | _ => none

/-- Whether a request is a POST. -/
def Request.isPost : Request → Bool
  | Request.post _ _ => true
  | Request.get _ _ => false

/-- Whether a request is a GET. -/
def Request.isGet : Request → Bool
  | Request.post _ _ => false
  | Request.get _ _ => true

namespace MasterGroupingRoute

/-- The hardcoded fallback session-cookie value
(`let cookieHeader = 's67pgo29kq2ue8o2rg90onsf8lsa06ud';`). -/
def fallbackCookie : String := "s67pgo29kq2ue8o2rg90onsf8lsa06ud"

/-- The login endpoint URL. -/
def loginUrl : String := "https://tms.ttnt.arkamaya.net/login/"

/-- The protected endpoint URL. -/
def groupingUrl : String := "https://tms.ttnt.arkamaya.net/grouping_route"

/-- The hardcoded credential pair posted to the login endpoint. -/
def loginParams : List (String × String) :=
  [("username", "admin-kasir@ttnt.co.id"), ("password", "123123")]

/-- The login POST request (`http.post('https://tms.ttnt.arkamaya.net/login/', ...)`). -/
def loginRequest : Request := Request.post loginUrl loginParams

/-- The cookie header derivation of the script body:
`const cookies = loginRes.cookies['ci_sessions']; let cookieHeader = '...';
if (cookies && cookies.length > 0) { cookieHeader = 'ci_sessions=' + cookies[0].value; }`.
In JavaScript the guard holds exactly when the jar entry is defined and the
array is non-empty. -/
def cookieHeaderOf (loginRes : Response) : String :=
  match loginRes.cookies "ci_sessions" with
  | some (c :: _) => "ci_sessions=" ++ c.value
  | _ => fallbackCookie

/-- The GET request sent with a given cookie header
(`http.get('https://tms.ttnt.arkamaya.net/grouping_route', { headers })`
with `headers = { Cookie: cookieHeader }`). -/
def groupingRequest (cookieHeader : String) : Request :=
  Request.get groupingUrl [("Cookie", cookieHeader)]

/-- The success log message. -/
def successMsg : String := "Berhasil akses grouping_route"

/-- The failure log message for a given status. -/
def failMsg (status : Nat) : String :=
  "Gagal akses grouping_route. Status: " ++ toString status

/-- One iteration of the default export of `mastergroupingroute.js`,
as the trace of effects it performs against an HTTP oracle `send`:
login POST, cookie capture, authenticated GET, status-code branch
logging, final `sleep(1)`. -/
def defaultFn (send : Request → Response) : List Event :=
  let loginRes := send loginRequest
  let cookieHeader := cookieHeaderOf loginRes
  let getReq := groupingRequest cookieHeader
  let res := send getReq
  [Event.request loginRequest, Event.request getReq]
    ++ (if res.status = 200 then
          [Event.log successMsg]
        else
          [Event.log (failMsg res.status), Event.log res.body])
    ++ [Event.sleep 1]

end MasterGroupingRoute

/-- Does `pat` match the character list `s` at index `i`? -/
def matchesAt (pat s : List Char) (i : Nat) : Bool :=
  pat.isPrefixOf (s.drop i)

/-- Does `pat` occur anywhere in `s` as a contiguous substring? -/
def hasSub (pat : List Char) : List Char → Bool
  | [] => pat.isPrefixOf ([] : List Char)
  | c :: rest => pat.isPrefixOf (c :: rest) || hasSub pat rest

/-- JavaScript `String.prototype.replace` with a plain string pattern,
on character lists: replaces the first occurrence of `pat` by `rep` and
leaves the rest of the input unchanged; if `pat` never occurs the input
is returned unchanged. -/
def replaceFirstL (pat rep : List Char) : List Char → List Char
  | [] => if pat.isPrefixOf ([] : List Char) then rep else []
  | c :: rest =>
    if pat.isPrefixOf (c :: rest) then rep ++ (c :: rest).drop pat.length
    else c :: replaceFirstL pat rep rest

/-- JavaScript `report.replace(pat, rep)` on Lean strings. -/
def replaceFirst (s pat rep : String) : String :=
  String.mk (replaceFirstL pat.data rep.data s.data)

namespace HandleSummary

/-- The options object `{ indent: ' ', enableColors: true }` passed to
`textSummary`. -/
structure TextSummaryOptions where
  indent : String
  enableColors : Bool
deriving DecidableEq, Repr

/-- The external routines `handleSummary` calls: the report templating
library `htmlReport`, the text summariser `textSummary`, and the
`JSON.stringify` builtin — all external to the repository, so kept
abstract, parametric in the type `α` of the k6 results object. -/
structure SummaryLibs (α : Type) where
  htmlReport : α → String
  textSummary : α → TextSummaryOptions → String
  stringify : α → String

/-- The pattern `'<body>'` of the `report.replace` call. -/
def bodyTag : String := "<body>"

/-- The replacement template literal of the `report.replace` call: the
`<body>` tag followed by the logo `img` and company-title `span` block. -/
def injectedBlock : String :=
  "<body>\n      <div style=\"display:flex; align-items:center; margin-bottom:20px;\">\n        <img src=\"./logo/ttnt.png\" alt=\"Logo\" style=\"width:100px; margin-right:10px;\">\n        <span style=\"font-size:1.5em; font-weight:bold;\">PT. Toyota Tsusho Nusa Transport</span>\n      </div>\n  "

/-- The part of `injectedBlock` after its leading `<body>` tag: the
logo-and-title markup that the replace inserts after the tag. -/
def logoTitleTail : String :=
  "\n      <div style=\"display:flex; align-items:center; margin-bottom:20px;\">\n        <img src=\"./logo/ttnt.png\" alt=\"Logo\" style=\"width:100px; margin-right:10px;\">\n        <span style=\"font-size:1.5em; font-weight:bold;\">PT. Toyota Tsusho Nusa Transport</span>\n      </div>\n  "

/-- The `handleSummary` export of `handleSummary.js`: renders the results
object to HTML, injects the logo/title block after `<body>`, and returns
the object `{ "summary.html": report, "summary.json": JSON.stringify(data),
stdout: textSummary(data, { indent: ' ', enableColors: true }) }`,
modelled as an association list in the object literal's key order. -/
def handleSummary {α : Type} (libs : SummaryLibs α) (data : α) :
    List (String × String) :=
  let report := replaceFirst (libs.htmlReport data) bodyTag injectedBlock
  [("summary.html", report),
   ("summary.json", libs.stringify data),
   ("stdout", libs.textSummary data ⟨" ", true⟩)]

end HandleSummary

namespace TestScript

/-- The test endpoint URL of `test.js`. -/
def testUrl : String := "https://test.k6.io/"

/-- One iteration of the default export of `test.js`:
`http.get('https://test.k6.io/'); sleep(1);`. -/
def defaultFn (_send : Request → Response) : List Event :=
  [Event.request (Request.get testUrl []), Event.sleep 1]

end TestScript

namespace Witness

/-- An HTTP oracle whose login response carries a non-empty
`ci_sessions` cookie and whose GET response has status 200. -/
def cookieSend : Request → Response := fun _ =>
  ⟨200, "", fun k => if k = "ci_sessions" then some [⟨"abc"⟩] else none⟩

/-- An HTTP oracle whose login response carries no `ci_sessions` cookie
and whose GET response has status 500. -/
def noCookieSend : Request → Response := fun _ =>
  ⟨500, "server error", fun _ => none⟩

/-- Concrete external routines whose rendered HTML contains a `<body>`
tag. -/
def okLibs : HandleSummary.SummaryLibs Unit :=
  ⟨fun _ => "<html><body>ok</body></html>", fun _ _ => "text-summary", fun _ => "null"⟩

/-- Concrete external routines whose rendered HTML contains no `<body>`
tag. -/
def noBodyLibs : HandleSummary.SummaryLibs Unit :=
  ⟨fun _ => "<html>plain</html>", fun _ _ => "text-summary", fun _ => "null"⟩

/-- Routines agreeing with `okLibs` on `textSummary` and `stringify` but
rendering different HTML. -/
def altLibs : HandleSummary.SummaryLibs Unit :=
  ⟨fun _ => "<p><body></body></p>", fun _ _ => "text-summary", fun _ => "null"⟩

end Witness

open MasterGroupingRoute HandleSummary

theorem requestsOf_defaultFn (send : Request → Response) :
    requestsOf (defaultFn send) =
      [loginRequest, groupingRequest (cookieHeaderOf (send loginRequest))] := by
  simp only [defaultFn]
  split <;> simp [requestsOf]

theorem logsOf_defaultFn (send : Request → Response) :
    logsOf (defaultFn send) =
      if (send (groupingRequest (cookieHeaderOf (send loginRequest)))).status = 200 then
        [successMsg]
      else
        [failMsg (send (groupingRequest (cookieHeaderOf (send loginRequest)))).status,
         (send (groupingRequest (cookieHeaderOf (send loginRequest)))).body] := by
  simp only [defaultFn]
  split <;> simp [logsOf]

/-- Claim C1: the session cookie sent on the protected GET falls back to
the hardcoded value: if the login response's `cookies['ci_sessions']` is
present and non-empty, the Cookie header of the `/grouping_route` GET is
`ci_sessions=` followed by the first cookie's value; otherwise it is the
hardcoded fallback session-cookie value. -/
theorem C1_session_cookie_fallback (send : Request → Response) :
    (∀ c rest, (send loginRequest).cookies "ci_sessions" = some (c :: rest) →
        Event.request (groupingRequest ("ci_sessions=" ++ c.value)) ∈ defaultFn send)
  ∧ ((send loginRequest).cookies "ci_sessions" = none ∨
      (send loginRequest).cookies "ci_sessions" = some [] →
        Event.request (groupingRequest fallbackCookie) ∈ defaultFn send) := by
  constructor
  · intro c rest h
    have hch : cookieHeaderOf (send loginRequest) = "ci_sessions=" ++ c.value := by
      simp [cookieHeaderOf, h]
    simp only [defaultFn, hch]
    split <;> simp
  · intro h
    have hch : cookieHeaderOf (send loginRequest) = fallbackCookie := by
      rcases h with h | h <;> simp [cookieHeaderOf, h]
    simp only [defaultFn, hch]
    split <;> simp

/-- Witness for C1 at two concrete oracles: one whose login response
carries a `ci_sessions` cookie, one whose login response carries none. -/
theorem C1_session_cookie_fallback_witness :
    Event.request (groupingRequest "ci_sessions=abc") ∈ defaultFn Witness.cookieSend
  ∧ Event.request (groupingRequest fallbackCookie) ∈ defaultFn Witness.noCookieSend :=
  ⟨(C1_session_cookie_fallback Witness.cookieSend).1 ⟨"abc"⟩ [] (by decide),
   (C1_session_cookie_fallback Witness.noCookieSend).2 (Or.inl rfl)⟩

/-- Claim C2: every iteration of the default export is the linear
three-step sequence login POST, cookie capture, authenticated GET with the
captured cookie — the issued requests are exactly that POST then that GET,
and the iteration ends with the single `sleep(1)`. -/
theorem C2_linear_three_step (send : Request → Response) :
    requestsOf (defaultFn send) =
      [loginRequest, groupingRequest (cookieHeaderOf (send loginRequest))]
  ∧ (defaultFn send).getLast? = some (Event.sleep 1) := by
  refine ⟨requestsOf_defaultFn send, ?_⟩
  simp only [defaultFn]
  split <;> simp

/-- Claim C5: the script's only error handling is the status-code branch:
status 200 logs exactly the success message, any other status logs exactly
the failure message with the status code followed by the response body; in
both cases the issued requests are the same two, so no retry, backoff, or
error propagation occurs. -/
theorem C5_status_branch_logging (send : Request → Response) :
    ((send (groupingRequest (cookieHeaderOf (send loginRequest)))).status = 200 →
        logsOf (defaultFn send) = [successMsg])
  ∧ ((send (groupingRequest (cookieHeaderOf (send loginRequest)))).status ≠ 200 →
        logsOf (defaultFn send) =
          [failMsg (send (groupingRequest (cookieHeaderOf (send loginRequest)))).status,
           (send (groupingRequest (cookieHeaderOf (send loginRequest)))).body])
  ∧ requestsOf (defaultFn send) =
      [loginRequest, groupingRequest (cookieHeaderOf (send loginRequest))] := by
  refine ⟨?_, ?_, requestsOf_defaultFn send⟩
  · intro h
    rw [logsOf_defaultFn, if_pos h]
  · intro h
    rw [logsOf_defaultFn, if_neg h]

/-- Witness for C5 at two concrete oracles: one whose GET response has
status 200, one whose GET response has status 500. -/
theorem C5_status_branch_logging_witness :
    logsOf (defaultFn Witness.cookieSend) = [successMsg]
  ∧ logsOf (defaultFn Witness.noCookieSend) = [failMsg 500, "server error"] :=
  ⟨(C5_status_branch_logging Witness.cookieSend).1 rfl,
   (C5_status_branch_logging Witness.noCookieSend).2.1 (by decide)⟩

/-- Claim C6: regardless of the responses, each iteration issues exactly
one POST and exactly one GET — no request is ever re-sent. -/
theorem C6_exactly_one_post_one_get (send : Request → Response) :
    (requestsOf (defaultFn send)).countP (fun r => r.isPost) = 1
  ∧ (requestsOf (defaultFn send)).countP (fun r => r.isGet) = 1 := by
  rw [requestsOf_defaultFn]
  constructor <;> rfl

/-- Claim C8: the two branches of the cookie fallback yield differently
shaped headers: the cookie-present branch yields `ci_sessions=<value>`
(which always contains an `=`), while the fallback is the bare hardcoded
value, which contains no `=` at all — in particular it lacks the
`name=value` shape of a session cookie. -/
theorem C8_fallback_shape (loginRes : Response) :
    (∀ c rest, loginRes.cookies "ci_sessions" = some (c :: rest) →
        cookieHeaderOf loginRes = "ci_sessions=" ++ c.value ∧
        Char.ofNat 61 ∈ ("ci_sessions=" ++ c.value).data)
  ∧ ((loginRes.cookies "ci_sessions" = none ∨ loginRes.cookies "ci_sessions" = some []) →
        cookieHeaderOf loginRes = fallbackCookie)
  ∧ Char.ofNat 61 ∉ fallbackCookie.data
  ∧ ("ci_sessions=".data).isPrefixOf fallbackCookie.data = false := by
  refine ⟨?_, ?_, by decide, by decide⟩
  · intro c rest h
    refine ⟨by simp [cookieHeaderOf, h], ?_⟩
    rw [String.data_append]
    exact List.mem_append_left _ (by decide)
  · intro h
    rcases h with h | h <;> simp [cookieHeaderOf, h]

theorem eq_append_drop_of_isPrefixOf {pat l : List Char}
    (h : pat.isPrefixOf l = true) : l = pat ++ l.drop pat.length := by
  rcases List.isPrefixOf_iff_prefix.mp h with ⟨t, ht⟩
  rw [← ht, List.drop_left]

theorem replaceFirstL_no_occurrence (pat rep : List Char) :
    ∀ s : List Char, hasSub pat s = false → replaceFirstL pat rep s = s := by
  intro s
  induction s with
  | nil =>
      intro h
      simp only [hasSub] at h
      simp [replaceFirstL, h]
  | cons c rest ih =>
      intro h
      simp only [hasSub, Bool.or_eq_false_iff] at h
      simp [replaceFirstL, h.1, ih h.2]

theorem replaceFirstL_first_occurrence (pat rep : List Char) :
    ∀ (s : List Char) (i : Nat), matchesAt pat s i = true →
      (∀ j, j < i → matchesAt pat s j = false) →
      replaceFirstL pat rep s = s.take i ++ rep ++ s.drop (i + pat.length) := by
  intro s
  induction s with
  | nil =>
      intro i hm _
      have hp : pat.isPrefixOf ([] : List Char) = true := by
        simpa [matchesAt] using hm
      have hpat : pat = [] := List.prefix_nil.mp (List.isPrefixOf_iff_prefix.mp hp)
      subst hpat
      simp [replaceFirstL]
  | cons c rest ih =>
      intro i hm hmin
      cases i with
      | zero =>
          have hp : pat.isPrefixOf (c :: rest) = true := by simpa [matchesAt] using hm
          simp [replaceFirstL, hp]
      | succ k =>
          have h0 : pat.isPrefixOf (c :: rest) = false := by
            simpa [matchesAt] using hmin 0 (Nat.succ_pos k)
          have hm2 : matchesAt pat rest k = true := by
            simpa [matchesAt] using hm
          have hmin2 : ∀ j, j < k → matchesAt pat rest j = false := by
            intro j hj
            simpa [matchesAt] using hmin (j + 1) (Nat.succ_lt_succ hj)
          have harith : k + 1 + pat.length = (k + pat.length) + 1 := by omega
          have step : replaceFirstL pat rep (c :: rest) =
              c :: replaceFirstL pat rep rest := by
            simp [replaceFirstL, h0]
          rw [step, ih k hm2 hmin2, harith]
          simp [List.take_succ_cons, List.drop_succ_cons]

/-- Witness for C8 at two concrete login responses, one per branch. -/
theorem C8_fallback_shape_witness :
    (cookieHeaderOf (Witness.cookieSend loginRequest) = "ci_sessions=" ++ "abc" ∧
      Char.ofNat 61 ∈ ("ci_sessions=" ++ "abc").data)
  ∧ cookieHeaderOf (Witness.noCookieSend loginRequest) = fallbackCookie :=
  ⟨(C8_fallback_shape (Witness.cookieSend loginRequest)).1 ⟨"abc"⟩ [] (by decide),
   (C8_fallback_shape (Witness.noCookieSend loginRequest)).2.1 (Or.inl rfl)⟩

/-- Claim C3: for every results object, `handleSummary` returns exactly
three artifacts, in order the HTML report under `summary.html` (the
rendered HTML with the logo/title block injected), the JSON dump under
`summary.json`, and the colored text summary under `stdout`. -/
theorem C3_three_artifacts {α : Type} (libs : SummaryLibs α) (data : α) :
    (handleSummary libs data).map Prod.fst = ["summary.html", "summary.json", "stdout"]
  ∧ List.lookup "summary.html" (handleSummary libs data) =
      some (replaceFirst (libs.htmlReport data) bodyTag injectedBlock)
  ∧ List.lookup "summary.json" (handleSummary libs data) = some (libs.stringify data)
  ∧ List.lookup "stdout" (handleSummary libs data) =
      some (libs.textSummary data ⟨" ", true⟩) :=
  ⟨rfl, rfl, rfl, rfl⟩

/-- Claim C4: the HTML artifact equals the templating library's output
with the logo/title block inserted immediately after the first `<body>`
tag; every character outside the insertion point is unchanged. -/
theorem C4_injection_after_body_tag {α : Type} (libs : SummaryLibs α) (data : α)
    (i : Nat)
    (hm : matchesAt bodyTag.data (libs.htmlReport data).data i = true)
    (hfirst : ∀ j, j < i → matchesAt bodyTag.data (libs.htmlReport data).data j = false) :
    List.lookup "summary.html" (handleSummary libs data) =
      some (String.mk ((libs.htmlReport data).data.take (i + 6)
        ++ logoTitleTail.data ++ (libs.htmlReport data).data.drop (i + 6))) := by
  have hlen : bodyTag.data.length = 6 := rfl
  have key : replaceFirstL bodyTag.data injectedBlock.data (libs.htmlReport data).data
      = (libs.htmlReport data).data.take i ++ injectedBlock.data
        ++ (libs.htmlReport data).data.drop (i + 6) := by
    have h := replaceFirstL_first_occurrence bodyTag.data injectedBlock.data
      (libs.htmlReport data).data i hm hfirst
    rwa [hlen] at h
  have hsplit : (libs.htmlReport data).data.drop i
      = bodyTag.data ++ (libs.htmlReport data).data.drop (i + 6) := by
    have h1 := @eq_append_drop_of_isPrefixOf bodyTag.data
      ((libs.htmlReport data).data.drop i) (by simpa [matchesAt] using hm)
    rwa [hlen, List.drop_drop] at h1
  have htake : (libs.htmlReport data).data.take (i + 6)
      = (libs.htmlReport data).data.take i ++ bodyTag.data := by
    rw [List.take_add, hsplit]
    congr 1
  have hinj : injectedBlock.data = bodyTag.data ++ logoTitleTail.data := rfl
  have base : List.lookup "summary.html" (handleSummary libs data) =
      some (String.mk (replaceFirstL bodyTag.data injectedBlock.data
        (libs.htmlReport data).data)) := rfl
  rw [base, key, hinj, htake]
  simp [List.append_assoc]

/-- Witness for C4 at a concrete rendering whose first `<body>` is at
index 6. -/
theorem C4_injection_after_body_tag_witness :
    List.lookup "summary.html" (handleSummary Witness.okLibs ()) =
      some (String.mk ((Witness.okLibs.htmlReport ()).data.take (6 + 6)
        ++ logoTitleTail.data ++ (Witness.okLibs.htmlReport ()).data.drop (6 + 6))) :=
  C4_injection_after_body_tag Witness.okLibs () 6 (by decide) (by decide)

/-- Claim C9: the JSON artifact is exactly the stringification of the
unmodified input, and neither the JSON dump nor the text summary depends
on the HTML rendering (and hence not on the logo/title injection): two
runs differing only in the rendering routine agree on both. -/
theorem C9_json_unaffected {α : Type} (libs libs2 : SummaryLibs α) (data : α)
    (hs : libs.stringify = libs2.stringify)
    (ht : libs.textSummary = libs2.textSummary) :
    List.lookup "summary.json" (handleSummary libs data) = some (libs.stringify data)
  ∧ List.lookup "summary.json" (handleSummary libs data)
      = List.lookup "summary.json" (handleSummary libs2 data)
  ∧ List.lookup "stdout" (handleSummary libs data)
      = List.lookup "stdout" (handleSummary libs2 data) := by
  refine ⟨rfl, ?_, ?_⟩
  · show some (libs.stringify data) = some (libs2.stringify data)
    rw [hs]
  · show some (libs.textSummary data ⟨" ", true⟩) = some (libs2.textSummary data ⟨" ", true⟩)
    rw [ht]

/-- Witness for C9 at two concrete routine records that differ only in
their HTML rendering. -/
theorem C9_json_unaffected_witness :
    List.lookup "summary.json" (handleSummary Witness.okLibs ())
      = some (Witness.okLibs.stringify ())
  ∧ List.lookup "summary.json" (handleSummary Witness.okLibs ())
      = List.lookup "summary.json" (handleSummary Witness.altLibs ())
  ∧ List.lookup "stdout" (handleSummary Witness.okLibs ())
      = List.lookup "stdout" (handleSummary Witness.altLibs ()) :=
  C9_json_unaffected Witness.okLibs Witness.altLibs () rfl rfl

/-- Claim C10: the injection replaces only the first occurrence of
`<body>`: when the rendered HTML has no `<body>` substring the HTML
artifact is the rendering unchanged, and when the first occurrence is at
index `i` only that occurrence is substituted, the rest untouched. -/
theorem C10_first_occurrence_only {α : Type} (libs : SummaryLibs α) (data : α) :
    (hasSub bodyTag.data (libs.htmlReport data).data = false →
        List.lookup "summary.html" (handleSummary libs data) =
          some (libs.htmlReport data))
  ∧ (∀ i, matchesAt bodyTag.data (libs.htmlReport data).data i = true →
        (∀ j, j < i → matchesAt bodyTag.data (libs.htmlReport data).data j = false) →
        List.lookup "summary.html" (handleSummary libs data) =
          some (String.mk ((libs.htmlReport data).data.take i ++ injectedBlock.data
            ++ (libs.htmlReport data).data.drop (i + 6)))) := by
  have base : List.lookup "summary.html" (handleSummary libs data) =
      some (String.mk (replaceFirstL bodyTag.data injectedBlock.data
        (libs.htmlReport data).data)) := rfl
  have hlen : bodyTag.data.length = 6 := rfl
  constructor
  · intro h
    rw [base, replaceFirstL_no_occurrence bodyTag.data injectedBlock.data
      (libs.htmlReport data).data h]
  · intro i hm hfirst
    have h := replaceFirstL_first_occurrence bodyTag.data injectedBlock.data
      (libs.htmlReport data).data i hm hfirst
    rw [hlen] at h
    rw [base, h]

/-- Witness for C10: a rendering with no `<body>` is returned unchanged,
and a rendering whose first `<body>` is at index 3 is substituted there. -/
theorem C10_first_occurrence_only_witness :
    List.lookup "summary.html" (handleSummary Witness.noBodyLibs ()) =
      some (Witness.noBodyLibs.htmlReport ())
  ∧ List.lookup "summary.html" (handleSummary Witness.altLibs ()) =
      some (String.mk ((Witness.altLibs.htmlReport ()).data.take 3 ++ injectedBlock.data
        ++ (Witness.altLibs.htmlReport ()).data.drop (3 + 6))) :=
  ⟨(C10_first_occurrence_only Witness.noBodyLibs ()).1 (by decide),
   (C10_first_occurrence_only Witness.altLibs ()).2 3 (by decide) (by decide)⟩

end K6TMS
